import Mathlib

/-!
Verification of the nutrient-resolution pipeline of `src/tool/calnnutri.py`.

The embedding models Python JSON-like values with the inductive `JVal`,
Python exceptions (`KeyError`, `ValueError`, `TypeError`, `AttributeError`)
with `Except PyErr`, and Python floats with exact rationals `ℚ`.
IEEE rounding, `inf` and `nan` literals are not modelled; every concrete
input used below is one on which exact and floating-point arithmetic agree.

External effects (the FatSecret HTTP calls and the OpenAI chat calls) are
modelled as oracle parameters: a function giving, for each query, the value
the Python code would have obtained after its own response handling.
-/

/-- Python exception kinds that the translated code can raise. -/
inductive PyErr where
  | keyError
  | valueError
  | typeError
  | attributeError
deriving DecidableEq, Repr

/-- JSON-like Python values: numbers, strings, booleans, None, lists, dicts.
Dicts are association lists with textually unique keys (as produced by JSON
parsing and Python dict literals). -/
inductive JVal where
  | num (q : ℚ)
  | str (s : String)
  | bool (b : Bool)
  | null
  | arr (xs : List JVal)
  | obj (kvs : List (String × JVal))

/-- Python truthiness (`if v:`). -/
def pyTruthy : JVal → Bool
  | .num q => q ≠ 0
  | .str s => s ≠ ""
  | .bool b => b
  | .null => false
  | .arr xs => !xs.isEmpty
  | .obj kvs => !kvs.isEmpty

/-- Dict lookup with default: Python `d.get(k, dflt)` on a known dict. -/
def lookupD (kvs : List (String × JVal)) (k : String) (d : JVal) : JVal :=
  match kvs.find? (fun p => p.1 == k) with
  | some p => p.2
  | none => d

/-- Pure observer: the value stored at key `k` of an object, if any. -/
def objGet? (v : JVal) (k : String) : Option JVal :=
  match v with
  | .obj kvs => (kvs.find? (fun p => p.1 == k)).map (fun p => p.2)
  | _ => none

/-- Pure observer: the key list of an object (empty for non-objects). -/
def jKeys : JVal → List String
  | .obj kvs => kvs.map (fun p => p.1)
  | _ => []

/-- Python `v == "t"` for a string literal on the right: only a string with
the same characters compares equal. -/
def isStrEq (v : JVal) (t : String) : Bool :=
  match v with
  | .str u => u == t
  | _ => false

/-- Python subscript `v[k]` with a string key: dict lookup raising `KeyError`
when the key is absent, `TypeError` on every non-dict. -/
def jGetItem (v : JVal) (k : String) : Except PyErr JVal :=
  match v with
  | .obj kvs =>
    match kvs.find? (fun p => p.1 == k) with
    | some p => .ok p.2
    | none => .error .keyError
  | _ => .error .typeError

/-- Python `v.get(k, d)`: dict method, `AttributeError` on non-dicts. -/
def jAttrGet (v : JVal) (k : String) (d : JVal) : Except PyErr JVal :=
  match v with
  | .obj kvs => .ok (lookupD kvs k d)
  | _ => .error .attributeError

/-- Decimal-string parsing as performed by Python `float(str)`:
optional surrounding whitespace, optional sign, digits with an optional
fractional part and an optional exponent (`inf`/`nan` words not modelled). -/
def parseFloat? (s : String) : Option ℚ :=
  let cs := ((s.data.dropWhile Char.isWhitespace).reverse.dropWhile Char.isWhitespace).reverse
  let signed : Int × List Char :=
    match cs with
    | '+' :: r => (1, r)
    | '-' :: r => (-1, r)
    | r => (1, r)
  let sgn := signed.1
  let cs1 := signed.2
  let ip := cs1.takeWhile Char.isDigit
  let cs2 := cs1.dropWhile Char.isDigit
  let fparts : List Char × List Char :=
    match cs2 with
    | '.' :: r => (r.takeWhile Char.isDigit, r.dropWhile Char.isDigit)
    | r => ([], r)
  let fp := fparts.1
  let cs3 := fparts.2
  if ip.isEmpty && fp.isEmpty then none
  else
    let natOf : List Char → ℕ := fun ds => ds.foldl (fun a c => a * 10 + (c.toNat - 48)) 0
    let mant : ℚ := (natOf ip : ℚ) + (natOf fp : ℚ) / ((10 : ℚ) ^ fp.length)
    match cs3 with
    | [] => some ((sgn : ℚ) * mant)
    | 'e' :: r =>
      let es : Int × List Char :=
        match r with
        | '+' :: t => (1, t)
        | '-' :: t => (-1, t)
        | t => (1, t)
      let ed := es.2.takeWhile Char.isDigit
      if ed.isEmpty || !(es.2.dropWhile Char.isDigit).isEmpty then none
      else some ((sgn : ℚ) * mant * (10 : ℚ) ^ (es.1 * (natOf ed : Int)))
    | 'E' :: r =>
      let es : Int × List Char :=
        match r with
        | '+' :: t => (1, t)
        | '-' :: t => (-1, t)
        | t => (1, t)
      let ed := es.2.takeWhile Char.isDigit
      if ed.isEmpty || !(es.2.dropWhile Char.isDigit).isEmpty then none
      else some ((sgn : ℚ) * mant * (10 : ℚ) ^ (es.1 * (natOf ed : Int)))
    | _ => none

/-- Python `float(v)`: numbers pass through, booleans become 0/1, strings are
parsed (raising `ValueError` when non-numeric), everything else raises
`TypeError`. -/
def pyFloat : JVal → Except PyErr ℚ
  | .num q => .ok q
  | .bool b => .ok (if b then 1 else 0)
  | .str s =>
    match parseFloat? s with
    | some q => .ok q
    | none => .error .valueError
  | _ => .error .typeError

/-- Character-list substring test (used by Python `k in s` on strings). -/
def listStarts : List Char → List Char → Bool
  | [], _ => true
  | _ :: _, [] => false
  | a :: as, b :: bs => a == b && listStarts as bs

/-- Character-list substring membership. -/
def listSub (needle : List Char) : List Char → Bool
  | [] => needle.isEmpty
  | b :: bs => listStarts needle (b :: bs) || listSub needle bs

/-- Python `k in v` for a string `k`: key membership for dicts, element
equality for lists, substring for strings, `TypeError` otherwise. -/
def pyContains (v : JVal) (k : String) : Except PyErr Bool :=
  match v with
  | .obj kvs => .ok (kvs.any (fun p => p.1 == k))
  | .arr xs => .ok (xs.any (fun x => isStrEq x k))
  | .str s => .ok (listSub k.data s.data)
  | _ => .error .typeError

/-- `for s in servings_data` after the `isinstance(servings_data, dict)`
singleton wrap at lines 204-205 of `calnnutri.py`: a dict becomes a
one-element list, a list iterates its elements, a string iterates its
characters, every other value raises `TypeError` (not iterable). -/
def toIterList : JVal → Except PyErr (List JVal)
  | .obj kvs => .ok [.obj kvs]
  | .arr xs => .ok xs
  | .str s => .ok (s.data.map (fun c => .str (String.mk [c])))
  | _ => .error .typeError

/-- `float(s.get(k, 0))` for a serving dict `s` with fields `kvs`. -/
def floatField (kvs : List (String × JVal)) (k : String) : Except PyErr ℚ :=
  pyFloat (lookupD kvs k (.num 0))

/-- The `nutrients` dict literal of lines 217-224, in source key order, with
every field scaled by `ratio = user_g / metric_amt`. -/
def scaledNutrients (user_g metric_amt cal carb prot fa sod sug : ℚ) : JVal :=
  .obj [
    ("calories", .num (cal * (user_g / metric_amt))),
    ("carbohydrate", .num (carb * (user_g / metric_amt))),
    ("protein", .num (prot * (user_g / metric_amt))),
    ("fat", .num (fa * (user_g / metric_amt))),
    ("sodium", .num (sod * (user_g / metric_amt))),
    ("sugar", .num (sug * (user_g / metric_amt)))]

/-- Body of the `try` block at lines 209-227 of `calnnutri.py`: convert the
reference mass, skip (`continue`, modelled as `.ok none`) when it is ≤ 0,
convert the six nutrient fields in source order and scale each one by
`ratio = user_g / metric_amt`.  Conversion failures surface as the raw
Python exception; the caller translates `ValueError` into a skip. -/
def servingBody (user_g : ℚ) (kvs : List (String × JVal)) :
    Except PyErr (Option (JVal × JVal)) :=
  match floatField kvs "metric_serving_amount" with
  | .error e => .error e
  | .ok metric_amt =>
    if metric_amt ≤ 0 then .ok none
    else
      match floatField kvs "calories" with
      | .error e => .error e
      | .ok cal =>
        match floatField kvs "carbohydrate" with
        | .error e => .error e
        | .ok carb =>
          match floatField kvs "protein" with
          | .error e => .error e
          | .ok prot =>
            match floatField kvs "fat" with
            | .error e => .error e
            | .ok fa =>
              match floatField kvs "sodium" with
              | .error e => .error e
              | .ok sod =>
                match floatField kvs "sugar" with
                | .error e => .error e
                | .ok sug =>
                  .ok (some
                    (scaledNutrients user_g metric_amt cal carb prot fa sod sug,
                     .obj kvs))

/-- One iteration of the serving loop (lines 207-228): the unit test
`s.get('metric_serving_unit') == 'g'` runs outside the `try`, so a non-dict
serving raises `AttributeError`; inside the `try`, only `ValueError` is
caught and turned into `continue` (`.ok none`). -/
def servingStep (user_g : ℚ) (s : JVal) : Except PyErr (Option (JVal × JVal)) :=
  match s with
  | .obj kvs =>
    if isStrEq (lookupD kvs "metric_serving_unit" .null) "g" then
      match servingBody user_g kvs with
      | .error .valueError => .ok none
      | r => r
    else .ok none
  | _ => .error .attributeError

/-- The serving scan: first serving whose step succeeds wins; skipped
servings continue the scan; an uncaught exception aborts it. -/
def scanServings (user_g : ℚ) : List JVal → Except PyErr (Option (JVal × JVal))
  | [] => .ok none
  | s :: rest =>
    match servingStep user_g s with
    | .ok none => scanServings user_g rest
    | r => r

/-- `calculate_nutrients_from_api` (lines 195-230 of `calnnutri.py`).
Returns `.ok none` for the Python `return None`, `.ok (some (nutrients, s))`
for the Python `return nutrients, s`, and `.error e` when the Python code
would raise. -/
def calculate_nutrients_from_api (api_details : JVal) (user_g : ℚ) :
    Except PyErr (Option (JVal × JVal)) :=
  if pyTruthy api_details then
    match pyContains api_details "food" with
    | .error e => .error e
    | .ok false => .ok none
    | .ok true =>
      match jGetItem api_details "food" with
      | .error e => .error e
      | .ok food =>
        match jAttrGet food "servings" (.obj []) with
        | .error e => .error e
        | .ok sv =>
          match jAttrGet sv "serving" (.arr []) with
          | .error e => .error e
          | .ok sd =>
            match toIterList sd with
            | .error e => .error e
            | .ok lst => scanServings user_g lst
  else .ok none

/-- Zero-filled result of `estimate_nutrients_with_llm` when the OpenAI
client was never initialized (lines 152-156). -/
def estimateNoClient : JVal :=
  .obj [("calories", .num 0), ("carbohydrate", .num 0), ("protein", .num 0),
    ("fat", .num 0), ("sodium", .num 0), ("sugar", .num 0),
    ("reason", .str "OpenAI client not initialized")]

/-- Zero-filled result of `estimate_nutrients_with_llm` when the chat call
or the JSON parse raised (lines 184-189). -/
def estimateFailed : JVal :=
  .obj [("calories", .num 0), ("carbohydrate", .num 0), ("protein", .num 0),
    ("fat", .num 0), ("sodium", .num 0), ("sugar", .num 0),
    ("reason", .str "데이터 부족 및 추정 실패")]

/-- `estimate_nutrients_with_llm` (lines 150-189).  `clientOk` models the
global `client` being non-`None`; `resp` models the outcome of the chat call
plus fence-stripping plus `json.loads`: `none` when anything in the `try`
block raised, `some v` for a successfully parsed value, which the code
returns verbatim. -/
def estimate_nutrients_with_llm (clientOk : Bool) (resp : Option JVal) : JVal :=
  if clientOk then
    match resp with
    | some v => v
    | none => estimateFailed
  else estimateNoClient

/-- One extracted food mention, as the four dict entries read at lines
237-240 of `calnnutri.py`. -/
structure FoodItem where
  name_kr : String
  weight_g : ℚ
  search_term_specific : String
  search_term_generic : String

/-- Provenance note built by `process_pipeline`: the three `method`
f-string templates of lines 254, 265 and 271 of `calnnutri.py`. -/
inductive Method where
  | apiDetail (desc : JVal)
  | apiGeneric (generic : String)
  | aiEst (reason : JVal)

/-- One entry of `final_results` (lines 273-278). -/
structure Resolved where
  name : String
  weight : ℚ
  nutrients : JVal
  note : Method

/-- Oracles for the external world of `process_pipeline`: `search` gives the
value returned by `FatSecretAPI.search_food` (`.null` for Python `None`),
`details` the value returned by `get_food_details` for a `food_id`,
`clientOk` whether the OpenAI client exists, and `llm` the parsed estimation
response for a `(name, weight)` pair (`none` when the call or parse fails). -/
structure PipelineEnv where
  search : String → JVal
  details : JVal → JVal
  clientOk : Bool
  llm : String → ℚ → Option JVal

/-- One lookup tier (the strategy-1 and strategy-2 blocks at lines 248-254
and 259-265): search, truthiness test, detail fetch by `food_id`, then
normalization. -/
def tierLookup (env : PipelineEnv) (term : String) (user_g : ℚ) :
    Except PyErr (Option (JVal × JVal)) :=
  let sr := env.search term
  if pyTruthy sr then
    match jGetItem sr "food_id" with
    | .error e => .error e
    | .ok fid => calculate_nutrients_from_api (env.details fid) user_g
  else .ok none

/-- The per-mention body of `process_pipeline` (lines 236-278).  Besides the
`final_results` entry it returns the list of search terms passed to
`api.search_food`, in call order, and whether `estimate_nutrients_with_llm`
was invoked. -/
def process_item (env : PipelineEnv) (item : FoodItem) :
    Except PyErr (Resolved × List String × Bool) :=
  match tierLookup env item.search_term_specific item.weight_g with
  | .error e => .error e
  | .ok (some (n, s)) =>
    match jAttrGet s "serving_description" .null with
    | .error e => .error e
    | .ok d =>
      .ok (⟨item.name_kr, item.weight_g, n, .apiDetail d⟩,
        [item.search_term_specific], false)
  | .ok none =>
    match tierLookup env item.search_term_generic item.weight_g with
    | .error e => .error e
    | .ok (some (n, _)) =>
      .ok (⟨item.name_kr, item.weight_g, n, .apiGeneric item.search_term_generic⟩,
        [item.search_term_specific, item.search_term_generic], false)
    | .ok none =>
      let nuts := estimate_nutrients_with_llm env.clientOk
        (env.llm item.name_kr item.weight_g)
      match jAttrGet nuts "reason" (.str "") with
      | .error e => .error e
      | .ok r =>
        .ok (⟨item.name_kr, item.weight_g, nuts, .aiEst r⟩,
          [item.search_term_specific, item.search_term_generic], true)

/-- `process_pipeline` over a mention list, keeping the `final_results`
entries in input order. -/
def process_pipeline (env : PipelineEnv) (items : List FoodItem) :
    Except PyErr (List Resolved) :=
  items.mapM (fun i => (process_item env i).map Prod.fst)

/-- The `total` dict of `record_nutrition` (line 326), in insertion order
calories, carbohydrate, protein, fat, sugar, sodium. -/
structure Totals where
  calories : ℚ
  carbohydrate : ℚ
  protein : ℚ
  fat : ℚ
  sugar : ℚ
  sodium : ℚ
deriving DecidableEq

/-- All-zero `total` as initialized at line 326. -/
def zeroTotals : Totals := ⟨0, 0, 0, 0, 0, 0⟩

/-- Formatting a value with a float format spec (`:.1f` / `:.0f`) in the
report f-string at line 330: numbers and booleans format fine, strings raise
`ValueError` (unknown format code), other values raise `TypeError`. -/
def fmtNum (v : JVal) : Except PyErr Unit :=
  match v with
  | .num _ => .ok ()
  | .bool _ => .ok ()
  | .str _ => .error .valueError
  | _ => .error .typeError

/-- One `n[k]` subscript plus float formatting from the report line 330. -/
def fmtCheck (n : JVal) (k : String) : Except PyErr Unit :=
  match jGetItem n k with
  | .error e => .error e
  | .ok v => fmtNum v

/-- The report f-string of line 330 evaluates `n['calories']`,
`n['carbohydrate']`, `n['protein']`, `n['fat']`, `n['sugar']`,
`n['sodium']` with subscripts (raising `KeyError` on a missing key) and
formats each with a float format spec, before the totals are accumulated. -/
def printRecordCheck (n : JVal) : Except PyErr Unit :=
  match fmtCheck n "calories" with
  | .error e => .error e
  | .ok _ =>
    match fmtCheck n "carbohydrate" with
    | .error e => .error e
    | .ok _ =>
      match fmtCheck n "protein" with
      | .error e => .error e
      | .ok _ =>
        match fmtCheck n "fat" with
        | .error e => .error e
        | .ok _ =>
          match fmtCheck n "sugar" with
          | .error e => .error e
          | .ok _ => fmtCheck n "sodium"

/-- `total[key] += n.get(key, 0)` for one key: Python addition of a number
and a JSON value (numbers and booleans add, anything else raises
`TypeError`). -/
def pyAddNum (t : ℚ) (v : JVal) : Except PyErr ℚ :=
  match v with
  | .num q => .ok (t + q)
  | .bool b => .ok (t + if b then 1 else 0)
  | _ => .error .typeError

/-- One key of the accumulation loop at lines 332-333. -/
def getAdd (t : ℚ) (n : JVal) (k : String) : Except PyErr ℚ :=
  match jAttrGet n k (.num 0) with
  | .error e => .error e
  | .ok v => pyAddNum t v

/-- One iteration of the report loop at lines 328-333: format the record's
six fields for display, then add `n.get(key, 0)` into each of the six
totals, walking the `total` keys in insertion order. -/
def addRecord (t : Totals) (n : JVal) : Except PyErr Totals :=
  match printRecordCheck n with
  | .error e => .error e
  | .ok _ =>
    match getAdd t.calories n "calories" with
    | .error e => .error e
    | .ok c =>
      match getAdd t.carbohydrate n "carbohydrate" with
      | .error e => .error e
      | .ok cb =>
        match getAdd t.protein n "protein" with
        | .error e => .error e
        | .ok p =>
          match getAdd t.fat n "fat" with
          | .error e => .error e
          | .ok f =>
            match getAdd t.sugar n "sugar" with
            | .error e => .error e
            | .ok sg =>
              match getAdd t.sodium n "sodium" with
              | .error e => .error e
              | .ok sd => .ok ⟨c, cb, p, f, sg, sd⟩

/-- The whole report loop of `record_nutrition` from a given accumulator. -/
def recordTotalsFrom (t : Totals) : List Resolved → Except PyErr Totals
  | [] => .ok t
  | r :: rest =>
    match addRecord t r.nutrients with
    | .error e => .error e
    | .ok t2 => recordTotalsFrom t2 rest

/-- The `total` computed by the report loop of `record_nutrition`
(lines 326-333) over the pipeline results. -/
def record_totals (rs : List Resolved) : Except PyErr Totals :=
  recordTotalsFrom zeroTotals rs

/-- Specification-side accessor: the numeric value of field `k`, 0 when the
field is missing or non-numeric. -/
def getNumD (n : JVal) (k : String) : ℚ :=
  match objGet? n k with
  | some (.num q) => q
  | _ => 0

/-- Specification-side elementwise addition of one record into a total. -/
def addSpec (t : Totals) (n : JVal) : Totals :=
  ⟨t.calories + getNumD n "calories", t.carbohydrate + getNumD n "carbohydrate",
   t.protein + getNumD n "protein", t.fat + getNumD n "fat",
   t.sugar + getNumD n "sugar", t.sodium + getNumD n "sodium"⟩

/-- Specification-side elementwise sum of a result list. -/
def sumSpec (rs : List Resolved) : Totals :=
  rs.foldl (fun t r => addSpec t r.nutrients) zeroTotals

/-- Presence flags of the three environment credentials read at lines 20-22
of `calnnutri.py` (`os.getenv` gives a non-empty string or `None`). -/
structure Config where
  fatsecretKeySet : Bool
  fatsecretSecretSet : Bool
  openaiKeySet : Bool

/-- Observable run of `record_nutrition`: whether an extraction chat call
was issued, whether `process_pipeline` ran, and the returned total
(`none` for the Python early `return None`). -/
structure RunTrace where
  extractionCalled : Bool
  pipelineRan : Bool
  result : Option Totals
deriving DecidableEq

/-- `parse_user_input_to_food_list` (lines 116-148): returns `[]` without
any chat call when the client is `None`; otherwise issues the call and
returns the parsed list, or `[]` when the call or parse failed.  The second
component records whether the chat call was issued. -/
def parse_user_input_to_food_list (cfg : Config)
    (resp : Option (List FoodItem)) : List FoodItem × Bool :=
  if cfg.openaiKeySet then
    match resp with
    | some l => (l, true)
    | none => ([], true)
  else ([], false)

/-- Python `str.strip()`: drop whitespace from both ends. -/
def pyStrip (s : String) : String :=
  String.mk (((s.data.dropWhile Char.isWhitespace).reverse.dropWhile
    Char.isWhitespace).reverse)

/-- `record_nutrition` (lines 286-374), with the log-file write elided
(it is wrapped in `try/except` and does not affect the returned value):
blank-input check, extraction, the FatSecret credential check of lines
309-311, then the pipeline and the report loop. -/
def record_nutrition (cfg : Config) (user_input : String)
    (parseResp : Option (List FoodItem)) (search : String → JVal)
    (details : JVal → JVal) (llm : String → ℚ → Option JVal) :
    Except PyErr RunTrace :=
  if pyStrip user_input = "" then .ok ⟨false, false, none⟩
  else
    let parsed := parse_user_input_to_food_list cfg parseResp
    if parsed.1.isEmpty then .ok ⟨parsed.2, false, none⟩
    else if !(cfg.fatsecretKeySet && cfg.fatsecretSecretSet) then
      .ok ⟨parsed.2, false, none⟩
    else
      let env : PipelineEnv := ⟨search, details, cfg.openaiKeySet, llm⟩
      match process_pipeline env parsed.1 with
      | .error e => .error e
      | .ok results =>
        match record_totals results with
        | .error e => .error e
        | .ok total => .ok ⟨parsed.2, true, some total⟩

/-- A composition document in the standard shape
`there is a 'food' -> 'servings' -> 'serving' list`. -/
def mkDoc (servings : List JVal) : JVal :=
  .obj [("food", .obj [("servings", .obj [("serving", .arr servings)])])]

/-- A gram-based serving record with numeric reference mass and the six
numeric nutrient fields. -/
def mkServing (amt cal carb prot fa sod sug : ℚ) : JVal :=
  .obj [("metric_serving_unit", .str "g"), ("metric_serving_amount", .num amt),
    ("calories", .num cal), ("carbohydrate", .num carb),
    ("protein", .num prot), ("fat", .num fa),
    ("sodium", .num sod), ("sugar", .num sug)]

/-- Total accessor: the raw value the code would read with
`s.get(k, 0)` from a serving (``.null`` for a non-dict). -/
def fieldValD (sv : JVal) (k : String) : JVal :=
  match sv with
  | .obj kvs => lookupD kvs k (.num 0)
  | _ => .null

/-- Total accessor: the `serving_description` provenance value read at
line 254 (`s_info.get('serving_description')`). -/
def servingDesc (sv : JVal) : JVal :=
  match sv with
  | .obj kvs => lookupD kvs "serving_description" .null
  | _ => .null

/-- Total accessor: the `reason` value read at line 271
(`nutrients.get('reason', '')`). -/
def reasonOf (v : JVal) : JVal :=
  match v with
  | .obj kvs => lookupD kvs "reason" (.str "")
  | _ => .str ""

/-- Whether a value is a Python dict. -/
def isObjB : JVal → Bool
  | .obj _ => true
  | _ => false

/-- A value that is a nonnegative number. -/
def isNonnegNum : JVal → Prop
  | .num q => 0 ≤ q
  | _ => False

/-- The six nutrient keys, in the order of the result dict literal of
lines 217-224. -/
def nutrientKeys : List String :=
  ["calories", "carbohydrate", "protein", "fat", "sodium", "sugar"]

/-- The six nutrient keys in the insertion order of the `total` dict of
line 326. -/
def totalKeys : List String :=
  ["calories", "carbohydrate", "protein", "fat", "sugar", "sodium"]

-- ---------------------------------------------------------------------
-- Helper lemmas
-- ---------------------------------------------------------------------

theorem servingBody_ok_some (user_g : ℚ) (kvs : List (String × JVal))
    (n sv : JVal) (h : servingBody user_g kvs = .ok (some (n, sv))) :
    ∃ amt cal carb prot fa sod sug,
      floatField kvs "metric_serving_amount" = .ok amt ∧ 0 < amt ∧
      floatField kvs "calories" = .ok cal ∧
      floatField kvs "carbohydrate" = .ok carb ∧
      floatField kvs "protein" = .ok prot ∧
      floatField kvs "fat" = .ok fa ∧
      floatField kvs "sodium" = .ok sod ∧
      floatField kvs "sugar" = .ok sug ∧
      n = scaledNutrients user_g amt cal carb prot fa sod sug ∧
      sv = .obj kvs := by
  unfold servingBody at h
  split at h
  · exact absurd h (by simp)
  · rename_i amt hamt
    split at h
    · exact absurd h (by simp)
    · rename_i hle
      split at h
      · exact absurd h (by simp)
      · rename_i cal hcal
        split at h
        · exact absurd h (by simp)
        · rename_i carb hcarb
          split at h
          · exact absurd h (by simp)
          · rename_i prot hprot
            split at h
            · exact absurd h (by simp)
            · rename_i fa hfa
              split at h
              · exact absurd h (by simp)
              · rename_i sod hsod
                split at h
                · exact absurd h (by simp)
                · rename_i sug hsug
                  simp only [Except.ok.injEq, Option.some.injEq, Prod.mk.injEq] at h
                  exact ⟨amt, cal, carb, prot, fa, sod, sug,
                    hamt, lt_of_not_le hle, hcal, hcarb, hprot, hfa, hsod, hsug,
                    h.1.symm, h.2.symm⟩

theorem servingStep_ok_some (user_g : ℚ) (s n sv : JVal)
    (h : servingStep user_g s = .ok (some (n, sv))) :
    ∃ kvs, s = .obj kvs ∧
      isStrEq (lookupD kvs "metric_serving_unit" .null) "g" = true ∧
      servingBody user_g kvs = .ok (some (n, sv)) := by
  unfold servingStep at h
  split at h
  · rename_i kvs
    split at h
    · rename_i hunit
      split at h
      · exact absurd h (by simp)
      · rename_i hne
        exact ⟨kvs, rfl, hunit, h⟩
    · exact absurd h (by simp)
  · exact absurd h (by simp)

theorem scanServings_ok_some (user_g : ℚ) (l : List JVal) (n sv : JVal)
    (h : scanServings user_g l = .ok (some (n, sv))) :
    ∃ s ∈ l, servingStep user_g s = .ok (some (n, sv)) := by
  induction l with
  | nil => exact absurd h (by simp [scanServings])
  | cons s rest ih =>
    unfold scanServings at h
    split at h
    · rcases ih h with ⟨t, ht, hstep⟩
      exact ⟨t, List.mem_cons_of_mem _ ht, hstep⟩
    · rename_i r hne
      exact ⟨s, List.mem_cons_self _ _, h⟩

/-- Full inversion of a successful normalization: the selected serving is a
gram-unit dict whose converted reference mass is positive, and the returned
nutrient dict is exactly its six converted fields scaled by
`user_g / metric_amt`. -/
theorem calc_ok_some_inv (doc : JVal) (user_g : ℚ) (n sv : JVal)
    (h : calculate_nutrients_from_api doc user_g = .ok (some (n, sv))) :
    ∃ kvs amt cal carb prot fa sod sug,
      sv = .obj kvs ∧
      isStrEq (lookupD kvs "metric_serving_unit" .null) "g" = true ∧
      floatField kvs "metric_serving_amount" = .ok amt ∧ 0 < amt ∧
      floatField kvs "calories" = .ok cal ∧
      floatField kvs "carbohydrate" = .ok carb ∧
      floatField kvs "protein" = .ok prot ∧
      floatField kvs "fat" = .ok fa ∧
      floatField kvs "sodium" = .ok sod ∧
      floatField kvs "sugar" = .ok sug ∧
      n = scaledNutrients user_g amt cal carb prot fa sod sug := by
  unfold calculate_nutrients_from_api at h
  split at h
  · split at h
    · exact absurd h (by simp)
    · exact absurd h (by simp)
    · split at h
      · exact absurd h (by simp)
      · split at h
        · exact absurd h (by simp)
        · split at h
          · exact absurd h (by simp)
          · split at h
            · exact absurd h (by simp)
            · rcases scanServings_ok_some _ _ _ _ h with ⟨s, _, hstep⟩
              rcases servingStep_ok_some _ _ _ _ hstep with ⟨kvs, hs, hunit, hbody⟩
              rcases servingBody_ok_some _ _ _ _ hbody with
                ⟨amt, cal, carb, prot, fa, sod, sug,
                  hamt, hpos, hcal, hcarb, hprot, hfa, hsod, hsug, hn, hsv⟩
              exact ⟨kvs, amt, cal, carb, prot, fa, sod, sug, hsv,
                hunit, hamt, hpos, hcal, hcarb, hprot, hfa, hsod, hsug, hn⟩
  · exact absurd h (by simp)

/-- On a document in the standard shape, normalization is exactly the
serving scan. -/
theorem calc_mkDoc (servings : List JVal) (user_g : ℚ) :
    calculate_nutrients_from_api (mkDoc servings) user_g =
      scanServings user_g servings := rfl

theorem scanServings_none_iff (user_g : ℚ) (l : List JVal) :
    scanServings user_g l = .ok none ↔
      ∀ s ∈ l, servingStep user_g s = .ok none := by
  induction l with
  | nil => simp [scanServings]
  | cons s rest ih =>
    constructor
    · intro h t ht
      unfold scanServings at h
      rcases hr : servingStep user_g s with e | o
      · rw [hr] at h
        exact absurd h (by simp)
      · rcases o with _ | p
        · rw [hr] at h
          rcases List.mem_cons.1 ht with rfl | ht2
          · exact hr
          · exact ih.1 h t ht2
        · rw [hr] at h
          exact absurd h (by simp)
    · intro h
      unfold scanServings
      rw [h s (List.mem_cons_self _ _)]
      exact ih.2 (fun t ht => h t (List.mem_cons_of_mem _ ht))

theorem scanServings_append_skip (user_g : ℚ) (pre rest : List JVal)
    (hpre : ∀ t ∈ pre, servingStep user_g t = .ok none) :
    scanServings user_g (pre ++ rest) = scanServings user_g rest := by
  induction pre with
  | nil => rfl
  | cons t pre ih =>
    rw [List.cons_append]
    conv_lhs => unfold scanServings
    rw [hpre t (List.mem_cons_self _ _)]
    exact ih (fun u hu => hpre u (List.mem_cons_of_mem _ hu))

theorem scanServings_cons_some (user_g : ℚ) (s : JVal) (rest : List JVal)
    (p : JVal × JVal) (hs : servingStep user_g s = .ok (some p)) :
    scanServings user_g (s :: rest) = .ok (some p) := by
  unfold scanServings
  rw [hs]

/-- Values on which Python `float()` does not raise `TypeError`. -/
def scalarVal : JVal → Prop
  | .num _ => True
  | .str _ => True
  | .bool _ => True
  | _ => False

theorem pyFloat_scalar_error (v : JVal) (hv : scalarVal v) (e : PyErr)
    (h : pyFloat v = .error e) : e = .valueError := by
  cases v with
  | num q => exact absurd h (by simp [pyFloat])
  | bool b => exact absurd h (by simp [pyFloat])
  | str s =>
    have hv2 : pyFloat (.str s) =
        (match parseFloat? s with
          | some q => Except.ok q
          | none => Except.error PyErr.valueError) := rfl
    rcases hp : parseFloat? s with _ | q
    · rw [hp] at hv2
      rw [hv2] at h
      exact (Except.error.inj h).symm
    · rw [hp] at hv2
      rw [hv2] at h
      exact absurd h (by simp)
  | null => exact absurd hv (by simp [scalarVal])
  | arr xs => exact absurd hv (by simp [scalarVal])
  | obj kvs => exact absurd hv (by simp [scalarVal])

theorem lookupD_scalar (kvs : List (String × JVal)) (k : String)
    (h : ∀ p ∈ kvs, scalarVal p.2) : scalarVal (lookupD kvs k (.num 0)) := by
  unfold lookupD
  split
  · rename_i p hp
    exact h p (List.mem_of_find?_eq_some hp)
  · trivial

theorem floatField_scalar_error (kvs : List (String × JVal)) (k : String)
    (h : ∀ p ∈ kvs, scalarVal p.2) (e : PyErr)
    (he : floatField kvs k = .error e) : e = .valueError :=
  pyFloat_scalar_error _ (lookupD_scalar kvs k h) e he

theorem servingBody_scalar_error (user_g : ℚ) (kvs : List (String × JVal))
    (h : ∀ p ∈ kvs, scalarVal p.2) (e : PyErr)
    (he : servingBody user_g kvs = .error e) : e = .valueError := by
  unfold servingBody at he
  split at he
  · rename_i e' he'
    cases he
    exact floatField_scalar_error kvs _ h _ he'
  · split at he
    · exact absurd he (by simp)
    · split at he
      · rename_i e' he'
        cases he
        exact floatField_scalar_error kvs _ h _ he'
      · split at he
        · rename_i e' he'
          cases he
          exact floatField_scalar_error kvs _ h _ he'
        · split at he
          · rename_i e' he'
            cases he
            exact floatField_scalar_error kvs _ h _ he'
          · split at he
            · rename_i e' he'
              cases he
              exact floatField_scalar_error kvs _ h _ he'
            · split at he
              · rename_i e' he'
                cases he
                exact floatField_scalar_error kvs _ h _ he'
              · split at he
                · rename_i e' he'
                  cases he
                  exact floatField_scalar_error kvs _ h _ he'
                · exact absurd he (by simp)

theorem servingStep_scalar_no_raise (user_g : ℚ) (kvs : List (String × JVal))
    (h : ∀ p ∈ kvs, scalarVal p.2) (e : PyErr) :
    servingStep user_g (.obj kvs) ≠ .error e := by
  intro he
  have hstep : servingStep user_g (.obj kvs) =
      (if isStrEq (lookupD kvs "metric_serving_unit" .null) "g" then
        match servingBody user_g kvs with
        | .error .valueError => .ok none
        | r => r
      else .ok none) := rfl
  rw [hstep] at he
  split at he
  · split at he
    · exact absurd he (by simp)
    · rename_i hne
      have hev := servingBody_scalar_error user_g kvs h e he
      subst hev
      exact hne he
  · exact absurd he (by simp)

theorem scanServings_cons_skip (user_g : ℚ) (s : JVal) (rest : List JVal)
    (hs : servingStep user_g s = .ok none) :
    scanServings user_g (s :: rest) = scanServings user_g rest := by
  conv_lhs => unfold scanServings
  rw [hs]

theorem scanServings_scalar_total (user_g : ℚ) (l : List JVal)
    (h : ∀ s ∈ l, ∃ kvs, s = .obj kvs ∧ ∀ p ∈ kvs, scalarVal p.2) :
    ∃ r, scanServings user_g l = .ok r := by
  induction l with
  | nil => exact ⟨none, rfl⟩
  | cons s rest ih =>
    rcases h s (List.mem_cons_self _ _) with ⟨kvs, rfl, hsc⟩
    rcases hr : servingStep user_g (.obj kvs) with e | o
    · exact absurd hr (servingStep_scalar_no_raise user_g kvs hsc e)
    · rcases o with _ | p
      · rcases ih (fun t ht => h t (List.mem_cons_of_mem _ ht)) with ⟨r, hrest⟩
        refine ⟨r, ?_⟩
        rw [scanServings_cons_skip user_g _ rest hr]
        exact hrest
      · exact ⟨some p, scanServings_cons_some user_g _ rest p hr⟩

/-- A serving whose converted reference mass raises `ValueError` is skipped
(`continue`) whatever its other fields hold. -/
theorem servingStep_amt_valueError (user_g : ℚ) (kvs : List (String × JVal))
    (hamt : floatField kvs "metric_serving_amount" = .error .valueError) :
    servingStep user_g (.obj kvs) = .ok none := by
  have hbody : servingBody user_g kvs = .error .valueError := by
    unfold servingBody
    rw [hamt]
  have hstep : servingStep user_g (.obj kvs) =
      (if isStrEq (lookupD kvs "metric_serving_unit" .null) "g" then
        match servingBody user_g kvs with
        | .error .valueError => .ok none
        | r => r
      else .ok none) := rfl
  rw [hstep, hbody]
  split <;> rfl

-- ---------------------------------------------------------------------
-- Claim theorems
-- ---------------------------------------------------------------------

/-- C2: whenever `calculate_nutrients_from_api` returns a nutrient set, the
selected serving's converted reference mass `amt` is positive and each of
the six nutrient fields of the result equals the serving's per-reference
value multiplied by `ratio = user_g / amt`; in particular massAmount=100,
calories=200, userWeightGrams=250 yields calories=500 (see the witness). -/
theorem claim_C2_scaling_law (doc : JVal) (user_g : ℚ) (n sv : JVal)
    (h : calculate_nutrients_from_api doc user_g = .ok (some (n, sv))) :
    ∃ amt, pyFloat (fieldValD sv "metric_serving_amount") = .ok amt ∧
      0 < amt ∧
      ∀ k ∈ nutrientKeys, ∃ q, pyFloat (fieldValD sv k) = .ok q ∧
        objGet? n k = some (.num (q * (user_g / amt))) := by
  rcases calc_ok_some_inv doc user_g n sv h with
    ⟨kvs, amt, cal, carb, prot, fa, sod, sug, rfl, hunit,
      hamt, hpos, hcal, hcarb, hprot, hfa, hsod, hsug, rfl⟩
  refine ⟨amt, hamt, hpos, ?_⟩
  intro k hk
  simp only [nutrientKeys, List.mem_cons, List.not_mem_nil, or_false] at hk
  rcases hk with rfl | rfl | rfl | rfl | rfl | rfl
  · exact ⟨cal, hcal, rfl⟩
  · exact ⟨carb, hcarb, rfl⟩
  · exact ⟨prot, hprot, rfl⟩
  · exact ⟨fa, hfa, rfl⟩
  · exact ⟨sod, hsod, rfl⟩
  · exact ⟨sug, hsug, rfl⟩

/-- The serving of testable property 3 of the spec: massAmount 100 with
calories 200 (the other five fields 30, 10, 5, 300, 20). -/
def c2Serving : JVal := mkServing 100 200 30 10 5 300 20

/-- A document holding exactly `c2Serving`. -/
def c2Doc : JVal := mkDoc [c2Serving]

/-- Witness for C2: at massAmount=100, calories=200, userWeightGrams=250 the
returned calories are 500. -/
theorem claim_C2_witness :
    objGet? (scaledNutrients 250 100 200 30 10 5 300 20) "calories" =
      some (.num 500) := by
  have h := claim_C2_scaling_law c2Doc 250
    (scaledNutrients 250 100 200 30 10 5 300 20) c2Serving rfl
  rcases h with ⟨amt, hamt, hpos, hall⟩
  have hamt' : amt = 100 :=
    Except.ok.inj (hamt.symm.trans
      (rfl : pyFloat (fieldValD c2Serving "metric_serving_amount") = .ok 100))
  subst hamt'
  rcases hall "calories" (by simp [nutrientKeys]) with ⟨q, hq, hget⟩
  have hq' : q = 200 :=
    Except.ok.inj (hq.symm.trans
      (rfl : pyFloat (fieldValD c2Serving "calories") = .ok 200))
  subst hq'
  rw [hget]
  norm_num

/-- A serving that is gram-based with positive reference mass 100 but whose
`calories` field is the non-numeric string "abc". -/
def c4Serving : JVal :=
  .obj [("metric_serving_unit", .str "g"), ("metric_serving_amount", .num 100),
    ("calories", .str "abc")]

/-- A document holding exactly `c4Serving` under the standard keys. -/
def c4Doc : JVal := mkDoc [c4Serving]

/-- Counterexample to C4 as stated: `c4Doc` has the top-level `food` key and
contains a serving whose mass unit is the literal "g" and whose reference
mass amount is 100 > 0, yet normalization returns `None` — so "null exactly
when no eligible gram-based serving exists or the `food` key is absent" is
false: eligibility also requires every nutrient field to convert to a
number. -/
theorem claim_C4_counterexample :
    calculate_nutrients_from_api c4Doc 250 = .ok none ∧
    pyContains c4Doc "food" = .ok true ∧
    objGet? c4Serving "metric_serving_unit" = some (.str "g") ∧
    pyFloat (fieldValD c4Serving "metric_serving_amount") = .ok 100 ∧
    (0 : ℚ) < 100 :=
  ⟨rfl, rfl, rfl, rfl, by norm_num⟩

/-- C4 (amended): on a standard-shape document, normalization selects the
first serving in scan order whose step succeeds (mass unit "g", converted
reference mass > 0, and all six nutrient fields convertible), skipping every
serving whose step yields no result; it returns `None` exactly when every
serving's step yields no result, and also when the document lacks the
top-level `food` key. -/
theorem claim_C4_first_match_amended :
    (∀ (user_g : ℚ) (pre : List JVal) (s : JVal) (rest : List JVal)
      (p : JVal × JVal), (∀ t ∈ pre, servingStep user_g t = .ok none) →
      servingStep user_g s = .ok (some p) →
      calculate_nutrients_from_api (mkDoc (pre ++ s :: rest)) user_g =
        .ok (some p)) ∧
    (∀ (user_g : ℚ) (servings : List JVal),
      calculate_nutrients_from_api (mkDoc servings) user_g = .ok none ↔
        ∀ s ∈ servings, servingStep user_g s = .ok none) ∧
    (∀ (user_g : ℚ) (kvs : List (String × JVal)),
      (∀ p ∈ kvs, p.1 ≠ "food") →
      calculate_nutrients_from_api (.obj kvs) user_g = .ok none) := by
  refine ⟨?_, ?_, ?_⟩
  · intro g pre s rest p hpre hs
    rw [calc_mkDoc, scanServings_append_skip g pre _ hpre]
    exact scanServings_cons_some g s rest p hs
  · intro g servings
    rw [calc_mkDoc]
    exact scanServings_none_iff g servings
  · intro g kvs hk
    have hcont : pyContains (.obj kvs) "food" = .ok false := by
      have hany : kvs.any (fun p => p.1 == "food") = false := by
        rw [List.any_eq_false]
        intro p hp
        simpa using hk p hp
      have hdef : pyContains (.obj kvs) "food" =
          .ok (kvs.any (fun p => p.1 == "food")) := rfl
      rw [hdef, hany]
    unfold calculate_nutrients_from_api
    split
    · rw [hcont]
    · rfl

/-- Witness for the amended C4: a distractor zero-mass serving is skipped and
the later serving `c2Serving` is selected first-match; a `food`-less document
yields `None`. -/
theorem claim_C4_amended_witness :
    calculate_nutrients_from_api
      (mkDoc [mkServing 0 1 1 1 1 1 1, c2Serving]) 250 =
      .ok (some (scaledNutrients 250 100 200 30 10 5 300 20, c2Serving)) ∧
    calculate_nutrients_from_api (.obj [("other", .num 1)]) 250 = .ok none := by
  constructor
  · exact claim_C4_first_match_amended.1 250 [mkServing 0 1 1 1 1 1 1]
      c2Serving [] _ (by intro t ht; simp at ht; subst ht; rfl) rfl
  · exact claim_C4_first_match_amended.2.2 250 [("other", .num 1)]
      (by intro p hp; simp at hp; subst hp; simp)

/-- A gram serving whose per-reference calories are negative. -/
def c5Serving : JVal := mkServing 100 (-50) 10 10 10 10 10

/-- Counterexample to C5 as stated: a negative upstream calories value
(-50 per 100 g) propagates through scaling into a negative output
(-125 for 250 g); the code never clamps. -/
theorem claim_C5_counterexample :
    calculate_nutrients_from_api (mkDoc [c5Serving]) 250 =
      .ok (some (scaledNutrients 250 100 (-50) 10 10 10 10 10, c5Serving)) ∧
    objGet? (scaledNutrients 250 100 (-50) 10 10 10 10 10) "calories" =
      some (.num (-125)) ∧
    (-125 : ℚ) < 0 := by
  refine ⟨rfl, ?_, by norm_num⟩
  show some (JVal.num ((-50) * ((250 : ℚ) / 100))) = some (.num (-125))
  norm_num

/-- C5 (amended): when the user weight is nonnegative and every field of
the selected serving that converts to a number converts to a nonnegative
one, all six scaled outputs are nonnegative (and they are the only entries
of the result). -/
theorem claim_C5_nonneg_amended (doc : JVal) (user_g : ℚ) (n sv : JVal)
    (hg : 0 ≤ user_g)
    (h : calculate_nutrients_from_api doc user_g = .ok (some (n, sv)))
    (hnn : ∀ k q, pyFloat (fieldValD sv k) = .ok q → 0 ≤ q) :
    jKeys n = nutrientKeys ∧
    ∀ k ∈ nutrientKeys, ∃ q, objGet? n k = some (.num q) ∧ 0 ≤ q := by
  rcases calc_ok_some_inv doc user_g n sv h with
    ⟨kvs, amt, cal, carb, prot, fa, sod, sug, rfl, hunit,
      hamt, hpos, hcal, hcarb, hprot, hfa, hsod, hsug, rfl⟩
  have hr : 0 ≤ user_g / amt := div_nonneg hg (le_of_lt hpos)
  refine ⟨rfl, ?_⟩
  intro k hk
  simp only [nutrientKeys, List.mem_cons, List.not_mem_nil, or_false] at hk
  rcases hk with rfl | rfl | rfl | rfl | rfl | rfl
  · exact ⟨_, rfl, mul_nonneg (hnn _ _ hcal) hr⟩
  · exact ⟨_, rfl, mul_nonneg (hnn _ _ hcarb) hr⟩
  · exact ⟨_, rfl, mul_nonneg (hnn _ _ hprot) hr⟩
  · exact ⟨_, rfl, mul_nonneg (hnn _ _ hfa) hr⟩
  · exact ⟨_, rfl, mul_nonneg (hnn _ _ hsod) hr⟩
  · exact ⟨_, rfl, mul_nonneg (hnn _ _ hsug) hr⟩

/-- Witness for the amended C5 at the all-nonnegative serving `c2Serving`. -/
theorem claim_C5_amended_witness :
    jKeys (scaledNutrients 250 100 200 30 10 5 300 20) = nutrientKeys := by
  refine (claim_C5_nonneg_amended c2Doc 250
    (scaledNutrients 250 100 200 30 10 5 300 20) c2Serving
    (by norm_num) rfl ?_).1
  intro k q hq
  rcases hfind : (([("metric_serving_unit", JVal.str "g"),
      ("metric_serving_amount", JVal.num 100),
      ("calories", JVal.num 200), ("carbohydrate", JVal.num 30),
      ("protein", JVal.num 10), ("fat", JVal.num 5),
      ("sodium", JVal.num 300), ("sugar", JVal.num 20)] :
        List (String × JVal)).find? (fun p => p.1 == k)) with _ | p
  · have hfv : fieldValD c2Serving k = .num 0 := by
      simp [fieldValD, c2Serving, mkServing, lookupD, hfind]
    rw [hfv] at hq
    have : (0 : ℚ) = q := Except.ok.inj hq
    rw [← this]
  · have hp := List.mem_of_find?_eq_some hfind
    have hfv : fieldValD c2Serving k = p.2 := by
      simp [fieldValD, c2Serving, mkServing, lookupD, hfind]
    rw [hfv] at hq
    simp only [List.mem_cons, List.not_mem_nil, or_false] at hp
    rcases hp with rfl | rfl | rfl | rfl | rfl | rfl | rfl | rfl
    · exact absurd hq (by simp [pyFloat, parseFloat?])
    · rw [← Except.ok.inj hq]; norm_num
    · rw [← Except.ok.inj hq]; norm_num
    · rw [← Except.ok.inj hq]; norm_num
    · rw [← Except.ok.inj hq]; norm_num
    · rw [← Except.ok.inj hq]; norm_num
    · rw [← Except.ok.inj hq]; norm_num
    · rw [← Except.ok.inj hq]; norm_num

/-- A standard document whose `serving` field holds an arbitrary value
(single object or list), before the singleton-vs-list normalization. -/
def mkDocServing (serving : JVal) : JVal :=
  .obj [("food", .obj [("servings", .obj [("serving", serving)])])]

/-- C6: feeding the normalizer a document whose `serving` field is a single
object yields exactly the same result as one whose `serving` field is the
one-element list of that object, for every serving object and user weight. -/
theorem claim_C6_singleton_vs_list (kvs : List (String × JVal)) (user_g : ℚ) :
    calculate_nutrients_from_api (mkDocServing (.obj kvs)) user_g =
      calculate_nutrients_from_api (mkDocServing (.arr [.obj kvs])) user_g := rfl

/-- A gram-unit serving whose reference mass field holds a list: `float`
raises `TypeError`, which `except ValueError` does not catch. -/
def c10Serving : JVal :=
  .obj [("metric_serving_unit", .str "g"), ("metric_serving_amount", .arr [])]

/-- Counterexample to C10 as stated: normalization is not total — a
gram-unit serving with a non-scalar mass-amount value makes
`calculate_nutrients_from_api` raise `TypeError` instead of skipping. -/
theorem claim_C10_counterexample :
    calculate_nutrients_from_api (mkDoc [c10Serving]) 250 =
      .error .typeError := rfl

/-- C10 (amended): on standard-shape documents whose servings are objects
with scalar (number/string/boolean) field values, normalization never
raises; and a gram serving whose mass amount raises `ValueError` (e.g. a
non-numeric string) is skipped, the scan continuing with the remaining
servings. -/
theorem claim_C10_total_amended :
    (∀ (user_g : ℚ) (servings : List JVal),
      (∀ s ∈ servings, ∃ kvs, s = .obj kvs ∧ ∀ p ∈ kvs, scalarVal p.2) →
      ∃ r, calculate_nutrients_from_api (mkDoc servings) user_g = .ok r) ∧
    (∀ (user_g : ℚ) (kvs : List (String × JVal)) (rest : List JVal),
      floatField kvs "metric_serving_amount" = .error .valueError →
      scanServings user_g (.obj kvs :: rest) = scanServings user_g rest) := by
  constructor
  · intro g servings h
    rcases scanServings_scalar_total g servings h with ⟨r, hr⟩
    exact ⟨r, (calc_mkDoc servings g).trans hr⟩
  · intro g kvs rest hk
    exact scanServings_cons_skip g _ rest (servingStep_amt_valueError g kvs hk)

/-- Witness for the amended C10: the all-scalar document `c4Doc` does not
raise, and a serving with mass amount "abc" is skipped in favour of the
rest of the list. -/
theorem claim_C10_amended_witness :
    (∃ r, calculate_nutrients_from_api (mkDoc [c4Serving]) 250 = .ok r) ∧
    scanServings 250 [.obj [("metric_serving_unit", .str "g"),
        ("metric_serving_amount", .str "abc")], c2Serving] =
      scanServings 250 [c2Serving] := by
  constructor
  · refine claim_C10_total_amended.1 250 [c4Serving] ?_
    intro s hs
    simp only [List.mem_singleton] at hs
    subst hs
    refine ⟨[("metric_serving_unit", .str "g"),
      ("metric_serving_amount", .num 100), ("calories", .str "abc")], rfl, ?_⟩
    intro p hp
    simp only [List.mem_cons, List.not_mem_nil, or_false] at hp
    rcases hp with rfl | rfl | rfl <;> trivial
  · exact claim_C10_total_amended.2 250
      [("metric_serving_unit", .str "g"), ("metric_serving_amount", .str "abc")]
      [c2Serving] rfl

theorem tierLookup_ok_some (env : PipelineEnv) (term : String) (user_g : ℚ)
    (n sv : JVal) (h : tierLookup env term user_g = .ok (some (n, sv))) :
    ∃ fid, jGetItem (env.search term) "food_id" = .ok fid ∧
      calculate_nutrients_from_api (env.details fid) user_g =
        .ok (some (n, sv)) := by
  unfold tierLookup at h
  dsimp only [] at h
  split at h
  · split at h
    · exact absurd h (by simp)
    · rename_i fid hfid
      exact ⟨fid, hfid, h⟩
  · exact absurd h (by simp)

/-- C9 (amended): a record resolved through a lookup tier carries exactly
the six nutrient keys (in source order) and nothing else — in particular no
`reason` key; the estimation call's two failure paths always carry the six
zero-valued nutrient keys plus a string `reason`; a successfully parsed
estimation response is passed through verbatim, so it carries `reason` only
when the model emitted one. -/
theorem claim_C9_key_shape_amended :
    (∀ (doc : JVal) (user_g : ℚ) (n sv : JVal),
      calculate_nutrients_from_api doc user_g = .ok (some (n, sv)) →
      jKeys n = nutrientKeys ∧ objGet? n "reason" = none) ∧
    (∀ resp, objGet? (estimate_nutrients_with_llm false resp) "reason" =
      some (.str "OpenAI client not initialized")) ∧
    objGet? (estimate_nutrients_with_llm true none) "reason" =
      some (.str "데이터 부족 및 추정 실패") := by
  refine ⟨?_, fun resp => rfl, rfl⟩
  intro doc user_g n sv h
  rcases calc_ok_some_inv doc user_g n sv h with
    ⟨kvs, amt, cal, carb, prot, fa, sod, sug, rfl, hunit,
      hamt, hpos, hcal, hcarb, hprot, hfa, hsod, hsug, rfl⟩
  exact ⟨rfl, rfl⟩

/-- The food mention used by the concrete pipeline runs. -/
def itemRice : FoodItem := ⟨"밥", 210, "Steamed Rice", "Rice"⟩

/-- A parsed estimation response holding the six nutrient keys but no
`reason` key. -/
def c9Resp : JVal :=
  .obj [("calories", .num 1), ("carbohydrate", .num 1), ("protein", .num 1),
    ("fat", .num 1), ("sodium", .num 1), ("sugar", .num 1)]

/-- Environment in which both lookup tiers find nothing and the estimation
model returns `c9Resp` (successfully parsed, no `reason`). -/
def envC9 : PipelineEnv :=
  ⟨fun _ => .null, fun _ => .null, true, fun _ _ => some c9Resp⟩

/-- Counterexample to C9 as stated: a mention resolved through the
estimation tier with a successfully parsed model response whose stored
nutrients mapping has no `reason` key at all. -/
theorem claim_C9_counterexample :
    process_item envC9 itemRice =
      .ok (⟨"밥", 210, c9Resp, .aiEst (.str "")⟩,
        ["Steamed Rice", "Rice"], true) ∧
    objGet? c9Resp "reason" = none :=
  ⟨rfl, rfl⟩

/-- Witness for the amended C9 on a lookup-tier success and on the
no-client failure path. -/
theorem claim_C9_amended_witness :
    (jKeys (scaledNutrients 100 50 10 20 30 40 60 70) = nutrientKeys ∧
      objGet? (scaledNutrients 100 50 10 20 30 40 60 70) "reason" = none) ∧
    objGet? (estimate_nutrients_with_llm false none) "reason" =
      some (.str "OpenAI client not initialized") :=
  ⟨claim_C9_key_shape_amended.1 (mkDoc [mkServing 50 10 20 30 40 60 70]) 100
      (scaledNutrients 100 50 10 20 30 40 60 70)
      (mkServing 50 10 20 30 40 60 70) rfl,
    claim_C9_key_shape_amended.2.1 none⟩

/-- C1: if the specific-term tier yields a nutrient set, `process_item`
issues exactly one search (the specific term), never calls the estimation
model, and records the specific-lookup provenance (the `API (상세: ...)`
note); and if the specific tier yields nothing but the generic tier yields
a nutrient set, the estimation model is still never called and the
generic-lookup provenance is recorded — no later tier runs once an earlier
tier has produced a usable nutrient set. -/
theorem claim_C1_tier_short_circuit (env : PipelineEnv) (item : FoodItem) :
    (∀ n sv, tierLookup env item.search_term_specific item.weight_g =
        .ok (some (n, sv)) →
      process_item env item = .ok
        (⟨item.name_kr, item.weight_g, n, .apiDetail (servingDesc sv)⟩,
         [item.search_term_specific], false)) ∧
    (tierLookup env item.search_term_specific item.weight_g = .ok none →
      ∀ n sv, tierLookup env item.search_term_generic item.weight_g =
          .ok (some (n, sv)) →
      process_item env item = .ok
        (⟨item.name_kr, item.weight_g, n, .apiGeneric item.search_term_generic⟩,
         [item.search_term_specific, item.search_term_generic], false)) := by
  constructor
  · intro n sv h1
    rcases tierLookup_ok_some env _ _ n sv h1 with ⟨fid, hfid, hcalc⟩
    rcases calc_ok_some_inv _ _ _ _ hcalc with
      ⟨kvs, _, _, _, _, _, _, _, hsv, -⟩
    subst hsv
    simp only [process_item, h1, jAttrGet, servingDesc]
  · intro h1 n sv h2
    rcases tierLookup_ok_some env _ _ n sv h2 with ⟨fid, hfid, hcalc⟩
    rcases calc_ok_some_inv _ _ _ _ hcalc with
      ⟨kvs, _, _, _, _, _, _, _, hsv, -⟩
    subst hsv
    simp only [process_item, h1, h2]

/-- Environment in which the specific-term search immediately finds a food
whose composition document is `c2Doc`. -/
def envC1A : PipelineEnv :=
  ⟨fun _ => .obj [("food_id", .num 1)], fun _ => c2Doc, true, fun _ _ => none⟩

/-- Environment in which only the generic term "Rice" finds a food. -/
def envC1B : PipelineEnv :=
  ⟨fun t => if t == "Rice" then .obj [("food_id", .num 1)] else .null,
    fun _ => c2Doc, true, fun _ _ => none⟩

/-- Witness for C1: a specific-tier hit searches once and skips estimation;
a generic-tier hit searches twice and skips estimation. -/
theorem claim_C1_witness :
    process_item envC1A itemRice = .ok
      (⟨"밥", 210, scaledNutrients 210 100 200 30 10 5 300 20,
        .apiDetail .null⟩, ["Steamed Rice"], false) ∧
    process_item envC1B itemRice = .ok
      (⟨"밥", 210, scaledNutrients 210 100 200 30 10 5 300 20,
        .apiGeneric "Rice"⟩, ["Steamed Rice", "Rice"], false) :=
  ⟨(claim_C1_tier_short_circuit envC1A itemRice).1 _ c2Serving rfl,
   (claim_C1_tier_short_circuit envC1B itemRice).2 rfl _ c2Serving rfl⟩

/-- C3 (amended): when both lookup tiers yield no nutrients, the result is
always the estimation tier's value with the estimated provenance tag; the
estimation call itself never raises — with no client, or on any call/parse
failure, it returns an object holding the six nutrient keys at 0 plus a
string `reason`; a successfully parsed model response, however, is stored
verbatim and may lack nutrient keys. -/
theorem claim_C3_fallback_amended :
    (∀ (env : PipelineEnv) (item : FoodItem) (kvs : List (String × JVal)),
      tierLookup env item.search_term_specific item.weight_g = .ok none →
      tierLookup env item.search_term_generic item.weight_g = .ok none →
      estimate_nutrients_with_llm env.clientOk
          (env.llm item.name_kr item.weight_g) = .obj kvs →
      process_item env item = .ok
        (⟨item.name_kr, item.weight_g, .obj kvs,
          .aiEst (lookupD kvs "reason" (.str ""))⟩,
         [item.search_term_specific, item.search_term_generic], true)) ∧
    (∀ resp, jKeys (estimate_nutrients_with_llm false resp) =
        nutrientKeys ++ ["reason"] ∧
      ∀ k ∈ nutrientKeys,
        objGet? (estimate_nutrients_with_llm false resp) k =
          some (.num 0)) ∧
    (jKeys (estimate_nutrients_with_llm true none) =
        nutrientKeys ++ ["reason"] ∧
      ∀ k ∈ nutrientKeys,
        objGet? (estimate_nutrients_with_llm true none) k = some (.num 0)) := by
  refine ⟨?_, fun resp => ⟨rfl, ?_⟩, ⟨rfl, ?_⟩⟩
  · intro env item kvs h1 h2 hest
    simp only [process_item, h1, h2, hest, jAttrGet]
  · intro k hk
    simp only [nutrientKeys, List.mem_cons, List.not_mem_nil, or_false] at hk
    rcases hk with rfl | rfl | rfl | rfl | rfl | rfl <;> rfl
  · intro k hk
    simp only [nutrientKeys, List.mem_cons, List.not_mem_nil, or_false] at hk
    rcases hk with rfl | rfl | rfl | rfl | rfl | rfl <;> rfl

/-- Environment in which both searches find nothing and the estimation
model returns the empty JSON object (successfully parsed). -/
def envC3 : PipelineEnv :=
  ⟨fun _ => .null, fun _ => .null, true, fun _ _ => some (.obj [])⟩

/-- Counterexample to C3 as stated: both tiers fail, the parsed estimation
response is `{}`, and the resolved record's nutrient mapping is `{}` —
every one of the six nutrient keys is missing. -/
theorem claim_C3_counterexample :
    process_item envC3 itemRice =
      .ok (⟨"밥", 210, .obj [], .aiEst (.str "")⟩,
        ["Steamed Rice", "Rice"], true) ∧
    objGet? (JVal.obj []) "calories" = none ∧
    jKeys (JVal.obj []) = [] :=
  ⟨rfl, rfl, rfl⟩

/-- Environment in which both searches find nothing and the estimation call
fails to parse. -/
def envC3W : PipelineEnv :=
  ⟨fun _ => .null, fun _ => .null, true, fun _ _ => none⟩

/-- Witness for the amended C3: both tiers fail and the failure path of the
estimation call produces the estimated tag with the zero-filled object. -/
theorem claim_C3_amended_witness :
    process_item envC3W itemRice = .ok
      (⟨"밥", 210, estimateFailed,
        .aiEst (.str "데이터 부족 및 추정 실패")⟩,
       ["Steamed Rice", "Rice"], true) ∧
    objGet? (estimate_nutrients_with_llm true none) "calories" =
      some (.num 0) := by
  constructor
  · exact claim_C3_fallback_amended.1 envC3W itemRice
      [("calories", .num 0), ("carbohydrate", .num 0), ("protein", .num 0),
       ("fat", .num 0), ("sodium", .num 0), ("sugar", .num 0),
       ("reason", .str "데이터 부족 및 추정 실패")] rfl rfl rfl
  · exact claim_C3_fallback_amended.2.2.2 "calories" (by simp [nutrientKeys])

theorem objGet?_get (n : JVal) (k : String) (v : JVal)
    (h : objGet? n k = some v) :
    jGetItem n k = .ok v ∧ jAttrGet n k (.num 0) = .ok v := by
  cases n with
  | obj kvs =>
    unfold objGet? at h
    rcases Option.map_eq_some'.1 h with ⟨p, hfind, hp2⟩
    constructor
    · show (match kvs.find? (fun p => p.1 == k) with
        | some p => Except.ok p.2
        | none => Except.error PyErr.keyError) = .ok v
      rw [hfind]
      exact congrArg Except.ok hp2
    · show Except.ok (lookupD kvs k (.num 0)) = .ok v
      unfold lookupD
      rw [hfind]
      exact congrArg Except.ok hp2
  | num q => exact absurd h (by simp [objGet?])
  | str s => exact absurd h (by simp [objGet?])
  | bool b => exact absurd h (by simp [objGet?])
  | null => exact absurd h (by simp [objGet?])
  | arr xs => exact absurd h (by simp [objGet?])

theorem addRecord_ok (t : Totals) (n : JVal)
    (h : ∀ k ∈ totalKeys, ∃ q, objGet? n k = some (.num q)) :
    addRecord t n = .ok (addSpec t n) := by
  rcases h "calories" (by simp [totalKeys]) with ⟨qc, hqc⟩
  rcases h "carbohydrate" (by simp [totalKeys]) with ⟨qcb, hqcb⟩
  rcases h "protein" (by simp [totalKeys]) with ⟨qp, hqp⟩
  rcases h "fat" (by simp [totalKeys]) with ⟨qf, hqf⟩
  rcases h "sugar" (by simp [totalKeys]) with ⟨qsg, hqsg⟩
  rcases h "sodium" (by simp [totalKeys]) with ⟨qsd, hqsd⟩
  have hpc : printRecordCheck n = .ok () := by
    simp only [printRecordCheck, fmtCheck,
      (objGet?_get n _ _ hqc).1, (objGet?_get n _ _ hqcb).1,
      (objGet?_get n _ _ hqp).1, (objGet?_get n _ _ hqf).1,
      (objGet?_get n _ _ hqsg).1, (objGet?_get n _ _ hqsd).1, fmtNum]
  have hadd : ∀ (x : ℚ) (k : String) (q : ℚ),
      objGet? n k = some (.num q) → getAdd x n k = .ok (x + q) := by
    intro x k q hk
    simp only [getAdd, (objGet?_get n k _ hk).2, pyAddNum]
  simp only [addRecord, hpc, hadd _ _ _ hqc, hadd _ _ _ hqcb,
    hadd _ _ _ hqp, hadd _ _ _ hqf, hadd _ _ _ hqsg, hadd _ _ _ hqsd,
    addSpec, getNumD, hqc, hqcb, hqp, hqf, hqsg, hqsd]

theorem recordTotalsFrom_ok (rs : List Resolved) : ∀ t : Totals,
    (∀ r ∈ rs, ∀ k ∈ totalKeys, ∃ q, objGet? r.nutrients k = some (.num q)) →
    recordTotalsFrom t rs =
      .ok (rs.foldl (fun acc r => addSpec acc r.nutrients) t) := by
  induction rs with
  | nil => intro t _; rfl
  | cons r rest ih =>
    intro t h
    conv_lhs => unfold recordTotalsFrom
    rw [addRecord_ok t r.nutrients (h r (List.mem_cons_self _ _))]
    simp only [List.foldl_cons]
    exact ih _ (fun r2 hr2 => h r2 (List.mem_cons_of_mem _ hr2))

/-- C7 (amended): summing zero records yields the all-zero total, and for
records all of whose six nutrient fields are present and numeric, the
computed total is the elementwise sum; however a record missing one of the
six keys makes the report loop raise `KeyError` (see the counterexample)
rather than being treated as 0 — the `n.get(key, 0)` default is unreachable
for the six standard keys because the report f-string subscripts them
first. -/
theorem claim_C7_aggregation_amended :
    record_totals ([] : List Resolved) = .ok zeroTotals ∧
    ∀ rs : List Resolved,
      (∀ r ∈ rs, ∀ k ∈ totalKeys, ∃ q, objGet? r.nutrients k = some (.num q)) →
      record_totals rs = .ok (sumSpec rs) := by
  refine ⟨rfl, ?_⟩
  intro rs h
  exact recordTotalsFrom_ok rs zeroTotals h

/-- Counterexample to C7 as stated: one record whose nutrients mapping is
`{}` — the report loop raises `KeyError` instead of treating the six
missing fields as 0 and producing the all-zero total. -/
theorem claim_C7_counterexample :
    record_totals [⟨"x", 1, .obj [], .aiEst (.str "")⟩] =
      .error .keyError ∧
    sumSpec [⟨"x", 1, .obj [], .aiEst (.str "")⟩] = zeroTotals :=
  ⟨rfl, by simp [sumSpec, addSpec, getNumD, objGet?, zeroTotals,
    List.foldl_cons, List.foldl_nil]⟩

/-- Two concrete records with all six numeric fields. -/
def c7RecA : Resolved :=
  ⟨"a", 1, .obj [("calories", .num 3), ("carbohydrate", .num 1),
    ("protein", .num 1), ("fat", .num 1), ("sugar", .num 1),
    ("sodium", .num 1)], .aiEst (.str "")⟩

/-- Second concrete record for the aggregation witness. -/
def c7RecB : Resolved :=
  ⟨"b", 1, .obj [("calories", .num 4), ("carbohydrate", .num 1),
    ("protein", .num 1), ("fat", .num 1), ("sugar", .num 1),
    ("sodium", .num 2)], .apiGeneric "x"⟩

/-- Witness for the amended C7 at two fully-numeric records. -/
theorem claim_C7_amended_witness :
    record_totals [c7RecA, c7RecB] = .ok (sumSpec [c7RecA, c7RecB]) := by
  refine claim_C7_aggregation_amended.2 [c7RecA, c7RecB] ?_
  intro r hr k hk
  simp only [List.mem_cons, List.not_mem_nil, or_false] at hr
  simp only [totalKeys, List.mem_cons, List.not_mem_nil, or_false] at hk
  rcases hr with rfl | rfl <;>
    rcases hk with rfl | rfl | rfl | rfl | rfl | rfl <;> exact ⟨_, rfl⟩

/-- Counterexample to C8 as stated: with the composition-source credentials
absent but the generative-text key present, `record_nutrition` still runs
the extraction stage (`extractionCalled = true`) and only then stops — a
pipeline stage executes although required credentials are missing, and the
missing FatSecret keys are detected mid-pipeline (after extraction), not at
startup: the startup check at lines 25-29 only prints a warning and
continues. -/
theorem claim_C8_counterexample :
    record_nutrition ⟨false, false, true⟩ "밥 먹었어" (some [itemRice])
      (fun _ => .null) (fun _ => .null) (fun _ _ => none) =
      .ok ⟨true, false, none⟩ := rfl

/-- C8 (amended): the startup check only warns.  When the generative-text
key is missing, extraction is skipped without a call and the run stops with
no stage executed; when a composition-source credential is missing, the run
stops before any lookup, estimation, aggregation or log write — but the
extraction stage has already executed whenever the input was non-blank and
the generative-text key was present. -/
theorem claim_C8_credentials_amended (cfg : Config) (input : String)
    (parseResp : Option (List FoodItem)) (search : String → JVal)
    (details : JVal → JVal) (llm : String → ℚ → Option JVal) :
    (cfg.openaiKeySet = false →
      record_nutrition cfg input parseResp search details llm =
        .ok ⟨false, false, none⟩) ∧
    ((cfg.fatsecretKeySet = false ∨ cfg.fatsecretSecretSet = false) →
      record_nutrition cfg input parseResp search details llm =
        .ok ⟨(pyStrip input != "") && cfg.openaiKeySet, false, none⟩) := by
  constructor
  · intro hopen
    unfold record_nutrition
    split
    · rfl
    · simp [parse_user_input_to_food_list, hopen]
  · intro hfat
    unfold record_nutrition
    split
    · rename_i hblank
      simp [hblank]
    · rename_i hblank
      rcases hopen : cfg.openaiKeySet with _ | _
      · simp [parse_user_input_to_food_list, hopen]
      · have hne : (pyStrip input != "") = true := by
          simpa using hblank
        rcases parseResp with _ | l
        · simp [parse_user_input_to_food_list, hopen, hne]
        · rcases l with _ | ⟨a, as⟩
          · simp [parse_user_input_to_food_list, hopen, hne]
          · have hcheck : (cfg.fatsecretKeySet && cfg.fatsecretSecretSet) = false := by
              rcases hfat with hk | hs
              · simp [hk]
              · simp [hs]
            simp [parse_user_input_to_food_list, hopen, hne, hcheck]

/-- Witness for the amended C8: a missing generative-text key means nothing
runs; missing composition-source keys stop the run after extraction with no
lookup and no result. -/
theorem claim_C8_amended_witness :
    record_nutrition ⟨true, true, false⟩ "hi" none
      (fun _ => .null) (fun _ => .null) (fun _ _ => none) =
      .ok ⟨false, false, none⟩ ∧
    record_nutrition ⟨false, true, true⟩ "hi" (some [itemRice])
      (fun _ => .null) (fun _ => .null) (fun _ _ => none) =
      .ok ⟨true, false, none⟩ :=
  ⟨(claim_C8_credentials_amended ⟨true, true, false⟩ "hi" none
      (fun _ => .null) (fun _ => .null) (fun _ _ => none)).1 rfl,
   (claim_C8_credentials_amended ⟨false, true, true⟩ "hi" (some [itemRice])
      (fun _ => .null) (fun _ => .null) (fun _ _ => none)).2 (Or.inl rfl)⟩
